import Mathlib

/-!
Verification of the instance lifecycle controller in
`oxide/resource_instance.go`: the Create/Read/Update/Delete operations of
`instanceResource`, the `waitForStoppedInstance` poll loop, and the
not-found classification consulted on the delete path.

Modelling conventions, stated once:

* Remote calls are modelled as `Except ApiError α` results supplied by the
  environment; `ApiError.notFound` is the HTTP 404 case, `ApiError.other`
  any other failure.  A Go `nil` error is `Option.none` where an `error`
  value flows as data (the poll channel).
* Terraform attribute values (`types.String`, `types.Int64`, ...) are
  modelled by their payloads; the elements of the two `types.List`
  attributes are modelled by the strings their `.String()` rendering
  produces, which is what the source feeds to `strconv.Unquote`.
* `context.WithTimeout` carries no data flow in the source:  `Create` and
  `Read` rebind `ctx` but pass it to no client call, and `Delete` discards
  the derived context entirely (`_, cancel := context.WithTimeout(...)`).
  Accordingly no definition here takes a deadline; the delete model takes a
  `fuel` bound for the poll loop only so that it is a total function, and
  reports `DeleteOutcome.hang` when no poll message was produced within
  `fuel` iterations.  The source's loop has no bound of its own.
* `tflog` calls are pure logging and are omitted.
-/

/-- Run states of a remote instance (`oxideSDK.InstanceState`); only
`stopped` is compared against by the source. -/
inductive InstanceState where
  | creating
  | starting
  | running
  | stopping
  | stopped
  | rebooting
  | repairing
  | failed
  | destroyed
  deriving DecidableEq

/-- The observed instance record (`oxideSDK.Instance`) as the source uses
it.  The two timestamps are the strings produced by
`TimeCreated.String()` and `TimeModified.String()`. -/
structure OxInstance where
  id : String
  name : String
  description : String
  hostname : String
  memory : Int
  ncpus : Int
  projectId : String
  runState : InstanceState
  timeCreated : String
  timeModified : String
  deriving DecidableEq

/-- A client-call failure.  `notFound` is the HTTP 404 condition; `other`
carries the message of any other failure. -/
inductive ApiError where
  | notFound
  | other (msg : String)
  deriving DecidableEq

/-- The message rendering of an error (`err.Error()` in the source). -/
def ApiError.message : ApiError → String
  | ApiError.notFound => "404 Not Found"
  | ApiError.other m => m

/-- Modelled from the spec: `is404`, the Error Classifier, is code of this
repository that is not under `src/` (resource_instance.go only calls it).
Per the spec it is a pure classification deciding "whether a client failure
corresponds to an HTTP not-found condition".  An absent (`nil`) error does
not correspond to a not-found condition. -/
def is404 : Option ApiError → Bool
  | some ApiError.notFound => true
  | _ => false

/-- The escape-free double-quoted fragment of Go `strconv.Unquote`, which
the source applies to each rendered element of `attach_to_disks` and
`external_ips` (a Terraform string element renders as a double-quoted
token).  A token is validly quoted here when it starts and ends with a
double quote and its interior contains no quote, backslash or newline; Go
escape sequences are outside the inputs the claims exercise. -/
def unquote (s : String) : Except String String :=
  match s.data with
  | '"' :: rest =>
    match rest.getLast? with
    | some '"' =>
      let inner := rest.dropLast
      if inner.all (fun c => c != '"' && c != '\\' && c != '\n') then
        Except.ok (String.mk inner)
      else
        Except.error "invalid syntax"
    | _ => Except.error "invalid syntax"
  | _ => Except.error "invalid syntax"

/-- The `timeouts` block of the plan (`timeouts.Value`); the schema offers
create, read and delete durations.  The lifecycle operations only ever read
this field, so its payload is carried opaquely. -/
structure TimeoutsValue where
  createT : Option String
  readT : Option String
  deleteT : Option String
  deriving DecidableEq

/-- The Terraform plan/state record (`instanceResourceModel`). -/
structure PlanModel where
  attachToDisks : List String
  description : String
  externalIPs : List String
  hostName : String
  id : String
  memory : Int
  name : String
  ncpus : Int
  projectId : String
  startOnCreate : Bool
  timeCreated : String
  timeModified : String
  timeouts : TimeoutsValue
  userData : String
  deriving DecidableEq

/-- One disk attachment of the create payload
(`oxideSDK.InstanceDiskAttachment`; the type field is always `attach`). -/
structure InstanceDiskAttachment where
  name : String
  deriving DecidableEq

/-- One external-IP request of the create payload
(`oxideSDK.ExternalIpCreate`; the type field is always `ephemeral`). -/
structure ExternalIpCreate where
  poolName : String
  deriving DecidableEq

/-- The create-instance request body (`oxideSDK.InstanceCreate` as filled
by the source; the network-interface attachment is the constant `none` and
is omitted). -/
structure InstanceCreateBody where
  description : String
  name : String
  hostname : String
  memory : Int
  ncpus : Int
  start : Bool
  userData : String
  disks : List InstanceDiskAttachment
  externalIps : List ExternalIpCreate
  deriving DecidableEq

/-- The disk-attachment translation loop of `Create` (lines 190-210):
unquote each element in order, aborting at the first malformed token. -/
def translateDisks : List String → Except String (List InstanceDiskAttachment)
  | [] => Except.ok []
  | d :: rest =>
    match unquote d with
    | Except.error e => Except.error e
    | Except.ok nm =>
      match translateDisks rest with
      | Except.error e => Except.error e
      | Except.ok tail => Except.ok ({ name := nm } :: tail)

/-- The external-IP translation loop of `Create` (lines 212-229): unquote
each element in order, aborting at the first malformed token. -/
def translateExternalIps : List String → Except String (List ExternalIpCreate)
  | [] => Except.ok []
  | p :: rest =>
    match unquote p with
    | Except.error e => Except.error e
    | Except.ok nm =>
      match translateExternalIps rest with
      | Except.error e => Except.error e
      | Except.ok tail => Except.ok ({ poolName := nm } :: tail)

/-- The Config Translator of `Create` (lines 165-230): base fields are
copied from the plan, then the disk loop runs, then the external-IP loop;
the first malformed token aborts with the diagnostic the source adds, and
no payload is produced. -/
def translatePayload (plan : PlanModel) :
    Except (String × String) InstanceCreateBody :=
  match translateDisks plan.attachToDisks with
  | Except.error e =>
      Except.error ("Error attaching instance to disk",
        "IP pool name parse error: " ++ e)
  | Except.ok disks =>
    match translateExternalIps plan.externalIPs with
    | Except.error e =>
        Except.error ("Error creating external IP addresses",
          "IP pool name parse error: " ++ e)
    | Except.ok ips =>
        Except.ok
          { description := plan.description
            name := plan.name
            hostname := plan.hostName
            memory := plan.memory
            ncpus := plan.ncpus
            start := plan.startOnCreate
            userData := plan.userData
            disks := disks
            externalIps := ips }

/-- Result of a `Create` invocation: the diagnostics added, the state
record saved (none when the operation returned early), and the
create-instance calls issued to the remote system. -/
structure CreateResult where
  diags : List (String × String)
  savedState : Option PlanModel
  createCalls : List InstanceCreateBody
  deriving DecidableEq

/-- Embedding of `instanceResource.Create` (lines 149-253).  `server` is
the remote create-instance operation.  On success the source copies the
response identifier into `plan.ID` and — lines 245-246 — the response
`TimeCreated` into **both** `plan.TimeCreated` and `plan.TimeModified`,
then saves the plan unchanged otherwise. -/
def instanceCreateOp (plan : PlanModel)
    (server : InstanceCreateBody → Except ApiError OxInstance) : CreateResult :=
  match translatePayload plan with
  | Except.error d => { diags := [d], savedState := none, createCalls := [] }
  | Except.ok body =>
    match server body with
    | Except.error e =>
        { diags := [("Error creating instance", "API error: " ++ e.message)]
          savedState := none
          createCalls := [body] }
    | Except.ok inst =>
        { diags := []
          savedState := some { plan with
            id := inst.id
            timeCreated := inst.timeCreated
            timeModified := inst.timeCreated }
          createCalls := [body] }

/-- Result of a `Read` invocation. -/
structure ReadResult where
  diags : List (String × String)
  savedState : Option PlanModel
  deriving DecidableEq

/-- Embedding of `instanceResource.Read` (lines 256-304).  `server` is the
remote view-instance operation, keyed by the identifier in the prior
state.  On success the source refreshes the scalar fields (lines 286-294,
with `TimeModified` again set from the response `TimeCreated`) and leaves
`AttachToDisks` and `ExternalIPs` untouched (lines 296-297 are TODO
comments). -/
def instanceReadOp (state : PlanModel)
    (server : String → Except ApiError OxInstance) : ReadResult :=
  match server state.id with
  | Except.error e =>
      { diags := [("Unable to read instance:", "API error: " ++ e.message)]
        savedState := none }
  | Except.ok inst =>
      { diags := []
        savedState := some { state with
          description := inst.description
          hostName := inst.hostname
          id := inst.id
          memory := inst.memory
          name := inst.name
          ncpus := inst.ncpus
          projectId := inst.projectId
          timeCreated := inst.timeCreated
          timeModified := inst.timeCreated } }

/-- The remote calls the delete path can issue (view calls made by the
poll loop are counted separately, see `DeleteResult.pollFetches`). -/
inductive RemoteCall where
  | diskList
  | diskDetach (id : String)
  | instanceStop
  | instanceDelete
  deriving DecidableEq

/-- Result of an `Update` invocation. -/
structure UpdateResult where
  diags : List (String × String)
  remoteCalls : List RemoteCall
  deriving DecidableEq

/-- Embedding of `instanceResource.Update` (lines 307-311): the source
unconditionally adds one error diagnostic and issues no remote call. -/
def instanceUpdateOp (_plan : PlanModel) : UpdateResult :=
  { diags := [("Error updating instance",
      "the oxide API currently does not support updating instances")]
    remoteCalls := [] }

/-- Where the `waitForStoppedInstance` goroutine stands: at the top of the
loop before fetch number `attempt`, stuck in a channel send that will never
complete, or returned after sending `nil`. -/
inductive PollPhase where
  | looping (attempt : Nat)
  | blockedSend
  | finished
  deriving DecidableEq

/-- State of the poll goroutine: its phase, the single message the caller
has received from the channel (if any), and how many view fetches have been
performed. -/
structure PollSt where
  phase : PollPhase
  delivered : Option (Option ApiError)
  fetches : Nat
  deriving DecidableEq

/-- The poll goroutine starts at the top of its loop, with nothing sent. -/
def pollInit : PollSt :=
  { phase := PollPhase.looping 0, delivered := none, fetches := 0 }

/-- One iteration of the `waitForStoppedInstance` loop (lines 406-421).
`view i` is the result of the i-th `InstanceView` fetch.  The channel is
unbuffered and `Delete` receives from it exactly once, so the first send is
delivered and any later send blocks forever (`blockedSend`).  On a fetch
error the source sends the error and then still evaluates `resp.RunState`;
the response accompanying a non-nil error carries no instance, so the
stopped test is not met and the loop continues — either way the source's
loop does not break on an error.  Between iterations the source sleeps a
fixed `time.Sleep(time.Second)`, a structural constant not modelled as real
time. -/
def pollStep (view : Nat → Except ApiError OxInstance) (s : PollSt) : PollSt :=
  match s.phase with
  | PollPhase.looping i =>
    match view i with
    | Except.error e =>
      match s.delivered with
      | some _ =>
          { s with phase := PollPhase.blockedSend, fetches := s.fetches + 1 }
      | none =>
          { phase := PollPhase.looping (i + 1)
            delivered := some (some e)
            fetches := s.fetches + 1 }
    | Except.ok inst =>
      if inst.runState = InstanceState.stopped then
        match s.delivered with
        | some _ =>
            { s with phase := PollPhase.blockedSend, fetches := s.fetches + 1 }
        | none =>
            { phase := PollPhase.finished
              delivered := some none
              fetches := s.fetches + 1 }
      else
        { s with phase := PollPhase.looping (i + 1), fetches := s.fetches + 1 }
  | _ => s

/-- The poll goroutine after `n` iterations. -/
def pollRun (view : Nat → Except ApiError OxInstance) : Nat → PollSt
  | 0 => pollInit
  | n + 1 => pollStep view (pollRun view n)

/-- A dependent disk as listed by `InstanceDiskList` (only its identifier
is used, for the detach body). -/
structure Disk where
  id : String
  deriving DecidableEq

/-- The remote environment one `Delete` invocation runs against:  the
outcome of each client call it can make.  `diskList` carries the `Items`
of the result page; per the spec's interface table a not-found list result
stands for an empty page ("not-found ⇒ empty list"), which is how the
source continues after swallowing a 404 from the list call. -/
structure DeleteEnv where
  diskList : Except ApiError (List Disk)
  diskDetach : String → Except ApiError Unit
  instanceStop : Except ApiError Unit
  instanceView : Nat → Except ApiError OxInstance
  instanceDelete : Except ApiError Unit

/-- Outcome of a `Delete` invocation.  `failure` carries the summary of the
diagnostic the source adds.  `hang` means the receive from the poll channel
never completed within the model's fuel — the source has no bound of its
own (the derived timeout context is discarded at line 328 and the loop
checks no deadline). -/
inductive DeleteOutcome where
  | success
  | failure (step : String)
  | hang
  deriving DecidableEq

/-- Result of a `Delete` invocation: outcome, the remote calls issued by
the main flow in order, and the number of view fetches the poll goroutine
performed (0 when the flow returned before spawning it). -/
structure DeleteResult where
  outcome : DeleteOutcome
  calls : List RemoteCall
  pollFetches : Nat
  deriving DecidableEq

/-- The detach fan-out of `Delete` (lines 347-364): detach each listed disk
in order; a 404 is treated as already-detached, any other failure aborts.
Returns the accumulated call list, as failure payload when aborting. -/
def detachAll (env : DeleteEnv) :
    List Disk → List RemoteCall → Except (List RemoteCall) (List RemoteCall)
  | [], acc => Except.ok acc
  | d :: rest, acc =>
    let acc2 := acc ++ [RemoteCall.diskDetach d.id]
    match env.diskDetach d.id with
    | Except.error e =>
        if is404 (some e) then detachAll env rest acc2 else Except.error acc2
    | Except.ok _ => detachAll env rest acc2

/-- The tail of `Delete` from the poll onwards (lines 380-403): receive one
message from the poll channel; the source then tests `!is404(e)` — so a
`nil` (success) message, which is not a 404, takes the error branch
"Unable to stop instance:" (in Go that branch additionally renders
`e.Error()` on the nil error) — and only a 404 message reaches the final
`InstanceDelete`, whose own 404 is swallowed. -/
def deleteAfterStop (env : DeleteEnv) (fuel : Nat) (acc : List RemoteCall) :
    DeleteResult :=
  let st := pollRun env.instanceView fuel
  match st.delivered with
  | none => { outcome := DeleteOutcome.hang, calls := acc, pollFetches := st.fetches }
  | some e =>
    if is404 e then
      let acc2 := acc ++ [RemoteCall.instanceDelete]
      match env.instanceDelete with
      | Except.error e2 =>
          if is404 (some e2) then
            { outcome := DeleteOutcome.success, calls := acc2, pollFetches := st.fetches }
          else
            { outcome := DeleteOutcome.failure "Unable to delete instance:"
              calls := acc2
              pollFetches := st.fetches }
      | Except.ok _ =>
          { outcome := DeleteOutcome.success, calls := acc2, pollFetches := st.fetches }
    else
      { outcome := DeleteOutcome.failure "Unable to stop instance:"
        calls := acc
        pollFetches := st.fetches }

/-- `Delete` after the disk list resolved to `items` (lines 347-403):
detach fan-out, then `InstanceStop` — whose 404 is swallowed and the flow
falls through to the poll (there is no short-circuit return in the source)
— then the poll tail. -/
def deleteFromDisks (env : DeleteEnv) (fuel : Nat) (items : List Disk)
    (acc : List RemoteCall) : DeleteResult :=
  match detachAll env items acc with
  | Except.error cs =>
      { outcome := DeleteOutcome.failure "Unable to detach disk:"
        calls := cs
        pollFetches := 0 }
  | Except.ok cs =>
    let cs2 := cs ++ [RemoteCall.instanceStop]
    match env.instanceStop with
    | Except.error e =>
        if is404 (some e) then deleteAfterStop env fuel cs2
        else
          { outcome := DeleteOutcome.failure "Unable to stop instance:"
            calls := cs2
            pollFetches := 0 }
    | Except.ok _ => deleteAfterStop env fuel cs2

/-- Embedding of `instanceResource.Delete` (lines 314-404): list dependent
disks (404 ⇒ continue with an empty page, any other failure aborts), then
`deleteFromDisks`. -/
def deleteOp (env : DeleteEnv) (fuel : Nat) : DeleteResult :=
  match env.diskList with
  | Except.error e =>
      if is404 (some e) then deleteFromDisks env fuel [] [RemoteCall.diskList]
      else
        { outcome := DeleteOutcome.failure "Unable to list attached disks:"
          calls := [RemoteCall.diskList]
          pollFetches := 0 }
  | Except.ok items => deleteFromDisks env fuel items [RemoteCall.diskList]

/-- A concrete instance observed in run-state `running`. -/
def runningInst : OxInstance :=
  { id := "inst-1"
    name := "web"
    description := "a web server"
    hostname := "web"
    memory := 1073741824
    ncpus := 2
    projectId := "proj-1"
    runState := InstanceState.running
    timeCreated := "2023-04-01 10:00:00 +0000 UTC"
    timeModified := "2023-04-01 10:00:00 +0000 UTC" }

/-- The same instance observed in run-state `stopped`. -/
def stoppedInst : OxInstance :=
  { runningInst with runState := InstanceState.stopped }

/-- Delete environment whose instance never reports `stopped`: every call
succeeds and every view fetch observes `running`. -/
def envNeverStopped : DeleteEnv :=
  { diskList := Except.ok []
    diskDetach := fun _ => Except.ok ()
    instanceStop := Except.ok ()
    instanceView := fun _ => Except.ok runningInst
    instanceDelete := Except.ok () }

/-- Delete environment in which every remote call fails with not-found. -/
def env404 (detach : String → Except ApiError Unit) : DeleteEnv :=
  { diskList := Except.error ApiError.notFound
    diskDetach := detach
    instanceStop := Except.error ApiError.notFound
    instanceView := fun _ => Except.error ApiError.notFound
    instanceDelete := Except.error ApiError.notFound }

/-- Delete environment whose poll observes `running` once and then
`stopped`: the poll completes without error. -/
def envStopObserved : DeleteEnv :=
  { diskList := Except.ok []
    diskDetach := fun _ => Except.ok ()
    instanceStop := Except.ok ()
    instanceView := fun i =>
      if i = 0 then Except.ok runningInst else Except.ok stoppedInst
    instanceDelete := Except.ok () }

/-- Delete environment whose stop call fails with not-found (instance
already gone); the subsequent view and delete calls also report
not-found. -/
def envStop404 : DeleteEnv :=
  { diskList := Except.ok []
    diskDetach := fun _ => Except.ok ()
    instanceStop := Except.error ApiError.notFound
    instanceView := fun _ => Except.error ApiError.notFound
    instanceDelete := Except.error ApiError.notFound }

/-- A concrete create-response instance whose creation and modification
timestamps differ. -/
def c5response : OxInstance :=
  { id := "inst-9"
    name := "web"
    description := "a web server"
    hostname := "web"
    memory := 1073741824
    ncpus := 2
    projectId := "proj-1"
    runState := InstanceState.starting
    timeCreated := "2023-04-01 10:00:00 +0000 UTC"
    timeModified := "2023-04-02 11:30:00 +0000 UTC" }

/-- A concrete plan with no list entries and empty computed fields. -/
def c5plan : PlanModel :=
  { attachToDisks := []
    description := "a web server"
    externalIPs := []
    hostName := "web"
    id := ""
    memory := 1073741824
    name := "web"
    ncpus := 2
    projectId := "proj-1"
    startOnCreate := true
    timeCreated := ""
    timeModified := ""
    timeouts := { createT := none, readT := none, deleteT := some "2m" }
    userData := "" }

/-- A prior state carrying one attached-disk entry. -/
def c6state : PlanModel :=
  { c5plan with id := "inst-9", attachToDisks := ["\"disk-old\""] }

/-- The same prior state with a different attached-disk entry. -/
def c6stateB : PlanModel :=
  { c5plan with id := "inst-9", attachToDisks := ["\"disk-other\""] }

/-- The state record `Create` saves for `c5plan` against a server answering
with `c5response`. -/
def c10saved : PlanModel :=
  { c5plan with
    id := c5response.id
    timeCreated := c5response.timeCreated
    timeModified := c5response.timeCreated }

/-- Once a message has been delivered, no later poll step changes it. -/
lemma pollStep_delivered_some (view : Nat → Except ApiError OxInstance)
    (s : PollSt) (m : Option ApiError) (h : s.delivered = some m) :
    (pollStep view s).delivered = some m := by
  unfold pollStep
  cases hp : s.phase with
  | looping i =>
    cases hv : view i with
    | error e => simp [hv, h]
    | ok inst =>
      by_cases hs : inst.runState = InstanceState.stopped <;> simp [hv, hs, h]
  | blockedSend => simpa using h
  | finished => simpa using h

/-- The delivered message is stable under running the poll further. -/
lemma pollRun_delivered_stable (view : Nat → Except ApiError OxInstance)
    (n : Nat) (m : Option ApiError) (h : (pollRun view n).delivered = some m) :
    ∀ k, (pollRun view (n + k)).delivered = some m := by
  intro k
  induction k with
  | zero => exact h
  | succ k ih => exact pollStep_delivered_some view _ m ih

/-- When every fetch fails with error `e`, the first poll iteration delivers
`e` and any further run leaves it delivered. -/
lemma pollRun_constErr (e : ApiError) (n : Nat) (h : 1 ≤ n) :
    (pollRun (fun _ => Except.error e) n).delivered = some (some e) := by
  obtain ⟨k, rfl⟩ : ∃ k, n = 1 + k := ⟨n - 1, by omega⟩
  have h1 : (pollRun (fun _ => Except.error e) 1).delivered = some (some e) := rfl
  exact pollRun_delivered_stable _ 1 _ h1 k

/-- A poll step never decreases the fetch count. -/
lemma pollStep_fetches_mono (view : Nat → Except ApiError OxInstance)
    (s : PollSt) : s.fetches ≤ (pollStep view s).fetches := by
  unfold pollStep
  cases hp : s.phase with
  | looping i =>
    cases hv : view i with
    | error e => cases hd : s.delivered <;> simp [hv, hd]
    | ok inst =>
      by_cases hs : inst.runState = InstanceState.stopped
      · cases hd : s.delivered <;> simp [hv, hs, hd]
      · simp [hv, hs]
  | blockedSend => simp
  | finished => simp

/-- The first poll iteration always performs a view fetch. -/
lemma pollRun_one_fetch (view : Nat → Except ApiError OxInstance) :
    1 ≤ (pollRun view 1).fetches := by
  show 1 ≤ (pollStep view pollInit).fetches
  unfold pollStep pollInit
  cases hv : view 0 with
  | error e => simp [hv]
  | ok inst =>
    by_cases hs : inst.runState = InstanceState.stopped <;> simp [hv, hs]

/-- A spawned poll performs at least one view fetch. -/
lemma pollRun_fetches_pos (view : Nat → Except ApiError OxInstance)
    (n : Nat) (h : 1 ≤ n) : 1 ≤ (pollRun view n).fetches := by
  induction n with
  | zero => omega
  | succ n ih =>
    cases Nat.eq_zero_or_pos n with
    | inl h0 =>
      subst h0
      exact pollRun_one_fetch view
    | inr hp =>
      calc 1 ≤ (pollRun view n).fetches := ih hp
        _ ≤ (pollStep view (pollRun view n)).fetches :=
            pollStep_fetches_mono view _
        _ = (pollRun view (n + 1)).fetches := rfl

/-- If no fetch ever observes run-state `stopped`, the poll never delivers
the success (`nil`) message. -/
lemma pollRun_no_nil (view : Nat → Except ApiError OxInstance)
    (hns : ∀ i inst, view i = Except.ok inst →
      inst.runState ≠ InstanceState.stopped) :
    ∀ n, (pollRun view n).delivered ≠ some none := by
  intro n
  induction n with
  | zero => simp [pollRun, pollInit]
  | succ n ih =>
    show (pollStep view (pollRun view n)).delivered ≠ some none
    unfold pollStep
    cases hp : (pollRun view n).phase with
    | looping i =>
      cases hv : view i with
      | error e =>
        cases hd : (pollRun view n).delivered with
        | none => simp [hv, hd]
        | some m =>
          have hm : m ≠ none := by rw [hd] at ih; simpa using ih
          simpa [hv, hd] using hm
      | ok inst =>
        have hrs := hns i inst hv
        cases hd : (pollRun view n).delivered with
        | none => simp [hv, hrs, hd]
        | some m =>
          have hm : m ≠ none := by rw [hd] at ih; simpa using ih
          simpa [hv, hrs, hd] using hm
    | blockedSend => simpa using ih
    | finished => simpa using ih

/-- When every view fetch observes `running`, the poll loop is still at its
top after any number of iterations, with nothing delivered: the loop never
exits while the instance keeps reporting a non-stopped state. -/
lemma pollRun_neverStopped (n : Nat) :
    pollRun (fun _ => Except.ok runningInst) n =
      { phase := PollPhase.looping n, delivered := none, fetches := n } := by
  induction n with
  | zero => rfl
  | succ n ih =>
    show pollStep (fun _ => Except.ok runningInst)
        (pollRun (fun _ => Except.ok runningInst) n) = _
    rw [ih]
    rfl

/-- C1: the source establishes the delete budget but discards the derived
context (line 328 binds it to `_`), and `waitForStoppedInstance` checks no
deadline, so when the remote system never reports run-state `stopped` the
receive from the poll channel never completes: for every bound on the poll
loop, `Delete` is still blocked, instead of failing with a timeout error no
later than the delete budget. -/
theorem delete_budget_not_enforced (fuel : Nat) :
    (deleteOp envNeverStopped fuel).outcome = DeleteOutcome.hang := by
  have hp := pollRun_neverStopped fuel
  simp only [deleteOp, envNeverStopped, deleteFromDisks, detachAll,
    deleteAfterStop]
  rw [hp]

/-- C2: evaluating `Delete` where the poll observes run-state `stopped`
(view reports `running` once, then `stopped`), so the poller delivers its
success (`nil`) message: the source's `!is404(e)` test is true on `nil`,
so `Delete` reports "Unable to stop instance:" and never issues the
delete-instance call — contradicting the claim that it proceeds to the
delete call and returns success. -/
theorem delete_stopped_poll_misclassified :
    (deleteOp envStopObserved 2).outcome =
        DeleteOutcome.failure "Unable to stop instance:"
      ∧ RemoteCall.instanceDelete ∉ (deleteOp envStopObserved 2).calls := by
  constructor
  · rfl
  · decide

/-- C3: when every remote call made during `Delete` fails with not-found —
the disk list (treated as zero dependents, so the flow continues), the
stop, every poll view fetch and the final delete — the operation returns
success, and the final delete-instance call is reached. -/
theorem delete_all_notFound_succeeds
    (detach : String → Except ApiError Unit) (fuel : Nat) (h : 1 ≤ fuel) :
    (deleteOp (env404 detach) fuel).outcome = DeleteOutcome.success
      ∧ RemoteCall.instanceDelete ∈ (deleteOp (env404 detach) fuel).calls := by
  have hp := pollRun_constErr ApiError.notFound fuel h
  simp only [deleteOp, env404, deleteFromDisks, detachAll, deleteAfterStop,
    is404]
  rw [hp]
  simp [is404]

/-- Closed witness for C3: all five remote operations report not-found and
the second `Delete` returns success with the delete call issued. -/
theorem delete_all_notFound_succeeds_witness :
    (deleteOp (env404 fun _ => Except.error ApiError.notFound) 1).outcome =
        DeleteOutcome.success
      ∧ RemoteCall.instanceDelete ∈
        (deleteOp (env404 fun _ => Except.error ApiError.notFound) 1).calls :=
  delete_all_notFound_succeeds (fun _ => Except.error ApiError.notFound) 1
    (by decide)

/-- C4 counterexample: when the stop call fails with not-found the source
does not short-circuit — the stop-wait poll IS entered (its goroutine
performs a view fetch), refuting "no stop-wait poll is entered"; the
operation still completes successfully on this environment. -/
theorem delete_stop404_no_shortcircuit :
    1 ≤ (deleteOp envStop404 1).pollFetches
      ∧ (deleteOp envStop404 1).outcome = DeleteOutcome.success := by
  constructor
  · decide
  · rfl

/-- C4 amended: when the stop call fails with not-found, `Delete` swallows
the error and falls through into the stop-wait poll rather than returning;
the operation then completes successfully because the poll's view fetch
also reports not-found (treated as already-gone) and the final delete's
not-found is swallowed. -/
theorem delete_stop404_polls_then_succeeds (fuel : Nat) (h : 1 ≤ fuel) :
    (deleteOp envStop404 fuel).outcome = DeleteOutcome.success
      ∧ 1 ≤ (deleteOp envStop404 fuel).pollFetches := by
  have hp := pollRun_constErr ApiError.notFound fuel h
  have hf := pollRun_fetches_pos
    (fun _ => Except.error ApiError.notFound) fuel h
  constructor
  · simp only [deleteOp, envStop404, deleteFromDisks, detachAll,
      deleteAfterStop, is404]
    rw [hp]
    simp [is404]
  · simp only [deleteOp, envStop404, deleteFromDisks, detachAll,
      deleteAfterStop, is404]
    rw [hp]
    simpa [is404] using hf

/-- Closed witness for C4's amended statement at the smallest poll bound. -/
theorem delete_stop404_polls_then_succeeds_witness :
    (deleteOp envStop404 1).outcome = DeleteOutcome.success
      ∧ 1 ≤ (deleteOp envStop404 1).pollFetches :=
  delete_stop404_polls_then_succeeds 1 (by decide)

/-- C5: evaluating `Create` on a response whose creation and modification
timestamps differ: line 246 stores the response's **creation** timestamp
into the saved state's `time_modified`, so the stored last-modified value
equals the response's creation timestamp and differs from its modification
timestamp — contradicting the claim (and the schema's own description of
`time_modified`). -/
theorem create_timeModified_is_timeCreated :
    (Option.map PlanModel.timeModified
        (instanceCreateOp c5plan (fun _ => Except.ok c5response)).savedState)
      = some c5response.timeCreated
    ∧ (Option.map PlanModel.timeModified
        (instanceCreateOp c5plan (fun _ => Except.ok c5response)).savedState)
      ≠ some c5response.timeModified := by
  constructor
  · rfl
  · decide

/-- C6 counterexample: after a successful `Read`, `attach_to_disks` still
holds whatever the prior state held — two prior states that differ only in
that list are refreshed against the same view response yet keep their
different values, so the list-typed attributes are not refreshed from the
response and a stale prior value is retained. -/
theorem read_lists_not_refreshed :
    (Option.map PlanModel.attachToDisks
        (instanceReadOp c6state (fun _ => Except.ok c5response)).savedState)
      = some c6state.attachToDisks
    ∧ (Option.map PlanModel.attachToDisks
        (instanceReadOp c6stateB (fun _ => Except.ok c5response)).savedState)
      = some c6stateB.attachToDisks
    ∧ c6state.attachToDisks ≠ c6stateB.attachToDisks := by
  refine ⟨rfl, rfl, by decide⟩

/-- C6 amended: a successful `Read` refreshes the scalar observed fields —
description, host name, identifier, memory, name, CPU count, project
identifier, creation timestamp — from the view response, sets the
last-modified field from the response's **creation** timestamp, and leaves
every other field, in particular the list-typed `attach_to_disks` and
`external_ips`, at its prior value. -/
theorem read_refreshes_scalars (st : PlanModel)
    (server : String → Except ApiError OxInstance) (inst : OxInstance)
    (h : server st.id = Except.ok inst) :
    (instanceReadOp st server).savedState = some { st with
      description := inst.description
      hostName := inst.hostname
      id := inst.id
      memory := inst.memory
      name := inst.name
      ncpus := inst.ncpus
      projectId := inst.projectId
      timeCreated := inst.timeCreated
      timeModified := inst.timeCreated } := by
  simp [instanceReadOp, h]

/-- Closed witness for C6's amended statement on concrete data. -/
theorem read_refreshes_scalars_witness :
    (instanceReadOp c6state (fun _ => Except.ok c5response)).savedState =
      some { c6state with
        description := c5response.description
        hostName := c5response.hostname
        id := c5response.id
        memory := c5response.memory
        name := c5response.name
        ncpus := c5response.ncpus
        projectId := c5response.projectId
        timeCreated := c5response.timeCreated
        timeModified := c5response.timeCreated } :=
  read_refreshes_scalars c6state (fun _ => Except.ok c5response) c5response rfl

/-- C7 counterexample: against a view that fails (with not-found) on every
fetch, after two iterations the poller has performed **two** fetches and
its loop has not finished — the first failure was delivered to the caller,
but the loop did not terminate on it; it fetched again and is stuck in a
send that can never complete.  This refutes "terminates ... as soon as a
fetch fails with a terminal error". -/
theorem poller_continues_after_error :
    (pollRun (fun _ => Except.error ApiError.notFound) 2).fetches = 2
    ∧ (pollRun (fun _ => Except.error ApiError.notFound) 2).delivered
        = some (some ApiError.notFound)
    ∧ (pollRun (fun _ => Except.error ApiError.notFound) 2).phase
        ≠ PollPhase.finished := by
  refine ⟨rfl, rfl, by decide⟩

/-- C7 amended: the poller's channel carries success (`nil`) only upon a
fetch observing run-state `stopped` — never on another transient state —
and when the first fetch fails, the failure is what the caller receives as
the poll result; but on a failure the loop itself does not exit (see the
counterexample).  The fixed one-second sleep between iterations is the
structural constant `time.Sleep(time.Second)` of the source. -/
theorem poller_success_iff_stopped
    (view : Nat → Except ApiError OxInstance) (n : Nat) :
    ((∀ i inst, view i = Except.ok inst →
        inst.runState ≠ InstanceState.stopped) →
      (pollRun view n).delivered ≠ some none)
    ∧ (∀ e, view 0 = Except.error e → 1 ≤ n →
        (pollRun view n).delivered = some (some e)) := by
  constructor
  · intro hns
    exact pollRun_no_nil view hns n
  · intro e hv hn
    obtain ⟨k, rfl⟩ : ∃ k, n = 1 + k := ⟨n - 1, by omega⟩
    have h1 : (pollRun view 1).delivered = some (some e) := by
      show (pollStep view pollInit).delivered = some (some e)
      unfold pollStep pollInit
      simp [hv]
    exact pollRun_delivered_stable view 1 (some e) h1 k

/-- Closed witness for C7's amended statement: a view failing with
not-found never yields the success message, and its failure is the
delivered poll result. -/
theorem poller_success_iff_stopped_witness :
    (pollRun (fun _ => Except.error ApiError.notFound) 3).delivered
        ≠ some none
    ∧ (pollRun (fun _ => Except.error ApiError.notFound) 3).delivered
        = some (some ApiError.notFound) :=
  ⟨(poller_success_iff_stopped (fun _ => Except.error ApiError.notFound) 3).1
      (fun _ inst h => Except.noConfusion h),
    (poller_success_iff_stopped (fun _ => Except.error ApiError.notFound) 3).2
      ApiError.notFound rfl (by decide)⟩

/-- C8: `Update` adds the unsupported-operation diagnostic and issues zero
remote calls, for every plan/state record. -/
theorem update_unsupported_no_calls (plan : PlanModel) :
    (instanceUpdateOp plan).remoteCalls = []
    ∧ (instanceUpdateOp plan).diags =
        [("Error updating instance",
          "the oxide API currently does not support updating instances")] :=
  ⟨rfl, rfl⟩

/-- If some element of the list is not a validly quoted token, the disk
translation loop fails (at its first malformed element). -/
lemma translateDisks_fails_of_mem (l : List String)
    (h : ∃ d, d ∈ l ∧ ∃ e, unquote d = Except.error e) :
    ∃ e, translateDisks l = Except.error e := by
  induction l with
  | nil =>
    rcases h with ⟨d, hd, _⟩
    cases hd
  | cons a rest ih =>
    rcases h with ⟨d, hd, e, he⟩
    cases hd with
    | head => exact ⟨e, by simp [translateDisks, he]⟩
    | tail _ hmem =>
      cases ha : unquote a with
      | error e2 => exact ⟨e2, by simp [translateDisks, ha]⟩
      | ok nm =>
        rcases ih ⟨d, hmem, e, he⟩ with ⟨e3, h3⟩
        exact ⟨e3, by simp [translateDisks, ha, h3]⟩

/-- C9: when the disk-attachment list contains a malformed (not validly
quoted) token, `Create` issues no create-instance call at all — so no
partial attachment list is ever submitted — saves no state, and surfaces a
validation diagnostic. -/
theorem create_malformed_disk_token_rejected (plan : PlanModel)
    (server : InstanceCreateBody → Except ApiError OxInstance)
    (h : ∃ d, d ∈ plan.attachToDisks ∧ ∃ e, unquote d = Except.error e) :
    (instanceCreateOp plan server).createCalls = []
    ∧ (instanceCreateOp plan server).savedState = none
    ∧ (instanceCreateOp plan server).diags ≠ [] := by
  rcases translateDisks_fails_of_mem plan.attachToDisks h with ⟨e, he⟩
  refine ⟨?_, ?_, ?_⟩ <;> simp [instanceCreateOp, translatePayload, he]

/-- Closed witness for C9: one unquoted token aborts `Create` before any
remote call. -/
theorem create_malformed_disk_token_rejected_witness :
    (instanceCreateOp { c5plan with attachToDisks := ["no-quotes"] }
        (fun _ => Except.ok c5response)).createCalls = []
    ∧ (instanceCreateOp { c5plan with attachToDisks := ["no-quotes"] }
        (fun _ => Except.ok c5response)).savedState = none
    ∧ (instanceCreateOp { c5plan with attachToDisks := ["no-quotes"] }
        (fun _ => Except.ok c5response)).diags ≠ [] :=
  create_malformed_disk_token_rejected _ _
    ⟨"no-quotes", List.mem_singleton.mpr rfl, "invalid syntax", rfl⟩

/-- The state record `Create` saves is either absent (early return) or the
plan with the identifier and both timestamps taken from the response — the
latter two both from the response's creation timestamp. -/
lemma instanceCreateOp_savedState_shape (plan : PlanModel)
    (server : InstanceCreateBody → Except ApiError OxInstance) :
    (instanceCreateOp plan server).savedState = none
    ∨ ∃ inst : OxInstance, (instanceCreateOp plan server).savedState =
        some { plan with
          id := inst.id
          timeCreated := inst.timeCreated
          timeModified := inst.timeCreated } := by
  unfold instanceCreateOp
  cases ht : translatePayload plan with
  | error d => exact Or.inl (by simp [ht])
  | ok body =>
    cases hs : server body with
    | error e => exact Or.inl (by simp [ht, hs])
    | ok inst => exact Or.inr ⟨inst, by simp [ht, hs]⟩

/-- C10: whatever state record a successful `Create` saves agrees with the
caller's plan on every attribute other than the identifier and the two
timestamps: name, description, host name, memory, CPU count, project
identifier, start-on-create flag, disk list, external-IP list, user data
and the timeouts block are persisted exactly as supplied, not re-read from
the server response. -/
theorem create_saves_plan_fields (plan : PlanModel)
    (server : InstanceCreateBody → Except ApiError OxInstance)
    (st : PlanModel)
    (h : (instanceCreateOp plan server).savedState = some st) :
    st.attachToDisks = plan.attachToDisks
    ∧ st.description = plan.description
    ∧ st.externalIPs = plan.externalIPs
    ∧ st.hostName = plan.hostName
    ∧ st.memory = plan.memory
    ∧ st.name = plan.name
    ∧ st.ncpus = plan.ncpus
    ∧ st.projectId = plan.projectId
    ∧ st.startOnCreate = plan.startOnCreate
    ∧ st.timeouts = plan.timeouts
    ∧ st.userData = plan.userData := by
  rcases instanceCreateOp_savedState_shape plan server with h0 | ⟨inst, h0⟩
  · rw [h0] at h
    exact Option.noConfusion h
  · rw [h0] at h
    have hst := Option.some.inj h
    rw [← hst]
    exact ⟨rfl, rfl, rfl, rfl, rfl, rfl, rfl, rfl, rfl, rfl, rfl⟩

/-- Closed witness for C10 on concrete data. -/
theorem create_saves_plan_fields_witness :
    c10saved.attachToDisks = c5plan.attachToDisks
    ∧ c10saved.description = c5plan.description
    ∧ c10saved.externalIPs = c5plan.externalIPs
    ∧ c10saved.hostName = c5plan.hostName
    ∧ c10saved.memory = c5plan.memory
    ∧ c10saved.name = c5plan.name
    ∧ c10saved.ncpus = c5plan.ncpus
    ∧ c10saved.projectId = c5plan.projectId
    ∧ c10saved.startOnCreate = c5plan.startOnCreate
    ∧ c10saved.timeouts = c5plan.timeouts
    ∧ c10saved.userData = c5plan.userData :=
  create_saves_plan_fields c5plan (fun _ => Except.ok c5response) c10saved rfl
